import Mathlib

/-!
Shallow embedding of the `CustomDataset` wrapper from `0_basics.ipynb` and of
the surrounding notebook cells it interacts with (CSV save/load, train/test
split sizes).  Tabular cell values are modelled as exact rationals: the
notebook moves decimal CSV text through `pandas` frames and a
`to_numpy(dtype=np.float32)` conversion, and every claim under study is about
row counts, indexing and value round-trips, none of which the binary rounding
of the decimal literals affects; the numeric coercion is therefore kept as the
identity on ℚ (see `toNumpyFloat32`).
-/

/-- Error raised by `pd.read_csv` when a tabular source is malformed
(inconsistent column counts across rows). -/
inductive LoadError where
  | parserError
  deriving DecidableEq

/-- Errors raised by pandas positional access: `IndexError` from `.iloc` with
an out-of-range position, `ValueError` from `Series.item()` on a series that
does not hold exactly one element. -/
inductive PdError where
  | indexError
  | valueError
  deriving DecidableEq

/-- A pandas `DataFrame`: a header naming the columns and one row of cells per
record.  A frame is rectangular by construction — every row has one cell per
column — which the invariant field records. -/
structure DataFrame where
  header : List String
  rows : List (List ℚ)
  rect : ∀ r ∈ rows, r.length = header.length

/-- A comma-separated tabular file at the granularity the claims need: the
header line and the parsed data lines. -/
structure CsvFile where
  header : List String
  rows : List (List ℚ)

/-- `df.to_csv(path, index=False)`: the emitted file carries the header and
the data rows, with no index column. -/
def DataFrame.to_csv (df : DataFrame) : CsvFile :=
  ⟨df.header, df.rows⟩

/-- `pd.read_csv`: loads a tabular file into a frame, failing when some data
line does not have one field per header column. -/
def read_csv (f : CsvFile) : Except LoadError DataFrame :=
  if h : ∀ r ∈ f.rows, r.length = f.header.length then
    .ok ⟨f.header, f.rows, h⟩
  else
    .error .parserError

/-- Python positional index resolution over a length-`n` sequence: a negative
index counts from the end (`idx + n`); the access is valid when the resolved
position lies in `[0, n)`. -/
def pyIndex (n : Nat) (idx : Int) : Option Nat :=
  let j : Int := if idx < 0 then (n : Int) + idx else idx
  if 0 ≤ j ∧ j < (n : Int) then some j.toNat else none

/-- `df.iloc[idx]`: positional row access with Python index semantics,
raising `IndexError` out of range. -/
def DataFrame.iloc (df : DataFrame) (idx : Int) : Except PdError (List ℚ) :=
  match pyIndex df.rows.length idx with
  | some i =>
    match df.rows[i]? with
    | some r => .ok r
    | none => .error .indexError
  | none => .error .indexError

/-- `Series.item()`: the sole element of a one-element series, `ValueError`
otherwise. -/
def seriesItem (row : List ℚ) : Except PdError ℚ :=
  match row with
  | [v] => .ok v
  | _ => .error .valueError

/-- `row.to_numpy(dtype=np.float32)`: the numeric conversion of a row, kept
as the identity at the exactness level of this model (see the file comment). -/
def toNumpyFloat32 (row : List ℚ) : List ℚ :=
  row

/-- The state of a `CustomDataset` object after `__init__` ran: the two loaded
frames and the two optional transforms, which the notebook stores but never
applies. -/
structure CustomDataset where
  targets_file : DataFrame
  data_dir : DataFrame
  transform : Option (List ℚ → List ℚ)
  target_transform : Option (ℚ → ℚ)

/-- `CustomDataset.__init__(targets_file, data_file, transform,
target_transform)`: reads both CSV sources and stores the frames.  The body
performs no consistency check between the two frames. -/
def CustomDataset.init (targets_file data_file : CsvFile)
    (transform : Option (List ℚ → List ℚ)) (target_transform : Option (ℚ → ℚ)) :
    Except LoadError CustomDataset := do
  let t ← read_csv targets_file
  let d ← read_csv data_file
  pure ⟨t, d, transform, target_transform⟩

/-- `CustomDataset.__len__`: `len(self.targets_file)`. -/
def CustomDataset.len (self : CustomDataset) : Nat :=
  self.targets_file.rows.length

/-- `CustomDataset.__getitem__(idx)`: the pair
`(self.data_dir.iloc[idx].to_numpy(dtype=np.float32),
self.targets_file.iloc[idx].item())`, with the data access evaluated first as
in the Python tuple. -/
def CustomDataset.getitem (self : CustomDataset) (idx : Int) :
    Except PdError (List ℚ × ℚ) := do
  let features ← self.data_dir.iloc idx
  let trow ← self.targets_file.iloc idx
  let label ← seriesItem trow
  pure (toNumpyFloat32 features, label)

/-- `__len__` as a state transformer over the object, to express that the call
reads the state and writes nothing back. -/
def CustomDataset.len_st : StateM CustomDataset Nat := do
  let self ← get
  pure self.len

/-- `__getitem__` as a state transformer over the object, to express that the
call reads the state and writes nothing back. -/
def CustomDataset.getitem_st (idx : Int) :
    StateM CustomDataset (Except PdError (List ℚ × ℚ)) := do
  let self ← get
  pure (self.getitem idx)

/-- `train_size = int(0.8 * len(dataset))` from the split cell. -/
def train_size (dataset : CustomDataset) : Nat :=
  (⌊(0.8 : ℚ) * (dataset.len : ℚ)⌋).toNat

/-- `test_size = len(dataset) - train_size` from the split cell. -/
def test_size (dataset : CustomDataset) : Nat :=
  dataset.len - train_size dataset

/-- Modelled from the spec: the Train/Test Splitter
(`torch.utils.data.random_split`, an external library collaborator not part of
this repository) partitions the index range of the dataset into two disjoint,
exhaustive index subsets.  It is modelled as slicing a random permutation
`perm` of the index range at the first requested length. -/
def random_split (perm : List Nat) (ts : Nat) : List Nat × List Nat :=
  (perm.take ts, perm.drop ts)

/-- Modelled from the spec: the subset sizes `floor(r * N)` and
`N - floor(r * N)` the splitter is given for a dataset of `N` records and a
split proportion `r`. -/
def splitSizes (r : ℚ) (N : Nat) : Nat × Nat :=
  ((⌊r * (N : ℚ)⌋).toNat, N - (⌊r * (N : ℚ)⌋).toNat)

/-! Concrete frames used by witnesses and counterexamples. -/

/-- A two-record label frame with a single `class` column. -/
def exT : DataFrame :=
  ⟨["class"], [[0], [1]], by decide⟩

/-- A two-record feature frame with two columns. -/
def exX : DataFrame :=
  ⟨["a", "b"], [[1, 2], [3, 4]], by decide⟩

/-- A consistent dataset object: both frames hold two records. -/
def exDs : CustomDataset :=
  ⟨exT, exX, none, none⟩

/-- A one-record feature frame, shorter than `exT`. -/
def mmX : DataFrame :=
  ⟨["a", "b"], [[1, 2]], by decide⟩

/-- A mismatched dataset object: two label records but one feature record. -/
def mmDs : CustomDataset :=
  ⟨exT, mmX, none, none⟩

/-- The first Iris feature row. -/
def irisRow : List ℚ :=
  [5.1, 3.5, 1.4, 0.2]

/-- An Iris-shaped feature frame: 150 rows of 4 features whose first row is
the Iris one. -/
def irisX : DataFrame :=
  ⟨["sepal length", "sepal width", "petal length", "petal width"],
   List.replicate 150 irisRow,
   by intro r hr; rw [List.eq_of_mem_replicate hr]; rfl⟩

/-- An Iris-shaped label frame: 150 rows of a single `class` column whose
first label is `0`. -/
def irisT : DataFrame :=
  ⟨["class"], List.replicate 150 [(0 : ℚ)],
   by intro r hr; rw [List.eq_of_mem_replicate hr]; rfl⟩

/-- The dataset object loaded from the Iris-shaped frames. -/
def irisDs : CustomDataset :=
  ⟨irisT, irisX, none, none⟩

/-! Helper lemmas shared by several developments. -/

/-- Reading back a written frame succeeds and returns the frame. -/
theorem read_csv_to_csv (df : DataFrame) : read_csv df.to_csv = .ok df := by
  unfold read_csv DataFrame.to_csv
  rw [dif_pos df.rect]

/-- Constructing from two written frames succeeds and stores the frames. -/
theorem init_to_csv (t x : DataFrame)
    (tr : Option (List ℚ → List ℚ)) (ttr : Option (ℚ → ℚ)) :
    CustomDataset.init t.to_csv x.to_csv tr ttr = .ok ⟨t, x, tr, ttr⟩ := by
  unfold CustomDataset.init
  rw [read_csv_to_csv, read_csv_to_csv]
  rfl

/-- A successful read returns the file contents unchanged. -/
theorem read_csv_ok_inv (f : CsvFile) (df : DataFrame)
    (h : read_csv f = .ok df) : df.header = f.header ∧ df.rows = f.rows := by
  unfold read_csv at h
  split at h
  · cases h
    exact ⟨rfl, rfl⟩
  · cases h

/-- A successful construction stores the two read frames and the transforms. -/
theorem init_ok_inv (tf xf : CsvFile)
    (tr : Option (List ℚ → List ℚ)) (ttr : Option (ℚ → ℚ)) (d : CustomDataset)
    (h : CustomDataset.init tf xf tr ttr = .ok d) :
    read_csv tf = .ok d.targets_file ∧ read_csv xf = .ok d.data_dir ∧
      d.transform = tr ∧ d.target_transform = ttr := by
  unfold CustomDataset.init at h
  cases ht : read_csv tf with
  | error e => rw [ht] at h; cases h
  | ok t =>
    rw [ht] at h
    cases hx : read_csv xf with
    | error e => rw [hx] at h; cases h
    | ok x =>
      rw [hx] at h
      cases h
      exact ⟨rfl, rfl, rfl, rfl⟩

/-- A row returned by `iloc` is a row of the frame. -/
theorem iloc_mem (df : DataFrame) (idx : Int) (r : List ℚ)
    (h : df.iloc idx = .ok r) : r ∈ df.rows := by
  unfold DataFrame.iloc at h
  split at h
  · split at h
    · cases h
      exact List.mem_iff_getElem?.mpr ⟨_, by assumption⟩
    · cases h
  · cases h

/-- Resolution fails exactly when the index lies outside `[-n, n)`. -/
theorem pyIndex_none_iff (n : Nat) (idx : Int) :
    pyIndex n idx = none ↔ ((n : Int) ≤ idx ∨ idx < -(n : Int)) := by
  simp only [pyIndex]
  by_cases hneg : idx < 0
  · rw [if_pos hneg]
    split
    · exact iff_of_false (Option.some_ne_none _) (by omega)
    · exact iff_of_true rfl (by omega)
  · rw [if_neg hneg]
    split
    · exact iff_of_false (Option.some_ne_none _) (by omega)
    · exact iff_of_true rfl (by omega)

/-- A resolved position is within the row count. -/
theorem pyIndex_lt (n : Nat) (idx : Int) (i : Nat)
    (h : pyIndex n idx = some i) : i < n := by
  simp only [pyIndex] at h
  by_cases hneg : idx < 0
  · rw [if_pos hneg] at h
    split at h
    · injection h with h
      omega
    · cases h
  · rw [if_neg hneg] at h
    split at h
    · injection h with h
      omega
    · cases h

/-- A nonnegative in-range index resolves to itself. -/
theorem pyIndex_nat (n i : Nat) (h : i < n) : pyIndex n (i : Int) = some i := by
  simp only [pyIndex]
  rw [if_neg (by omega : ¬((i : Int) < 0))]
  rw [if_pos (by omega : (0 : Int) ≤ (i : Int) ∧ (i : Int) < (n : Int))]
  simp

/-- A negative in-range index resolves like the shifted nonnegative one. -/
theorem pyIndex_neg (n : Nat) (idx : Int) (h1 : -(n : Int) ≤ idx)
    (h2 : idx < 0) : pyIndex n idx = pyIndex n ((n : Int) + idx) := by
  simp only [pyIndex]
  rw [if_pos h2, if_neg (by omega : ¬((n : Int) + idx < 0))]

/-- `iloc` raises `IndexError` exactly when index resolution fails. -/
theorem iloc_indexError_iff (df : DataFrame) (idx : Int) :
    df.iloc idx = .error .indexError ↔ pyIndex df.rows.length idx = none := by
  unfold DataFrame.iloc
  cases hp : pyIndex df.rows.length idx with
  | none => simp
  | some i =>
    have hi : i < df.rows.length := pyIndex_lt _ _ _ hp
    dsimp only
    rw [List.getElem?_eq_getElem hi]
    simp

/-- `iloc` only ever raises `IndexError`. -/
theorem iloc_error_eq (df : DataFrame) (idx : Int) (e : PdError)
    (h : df.iloc idx = .error e) : e = .indexError := by
  unfold DataFrame.iloc at h
  cases hp : pyIndex df.rows.length idx with
  | none =>
    rw [hp] at h
    cases h
    rfl
  | some i =>
    have hi : i < df.rows.length := pyIndex_lt _ _ _ hp
    rw [hp] at h
    dsimp only at h
    rw [List.getElem?_eq_getElem hi] at h
    cases h

/-- On a successfully resolved index, `iloc` returns the row there. -/
theorem iloc_of_pyIndex (df : DataFrame) (idx : Int) (i : Nat)
    (hp : pyIndex df.rows.length idx = some i) :
    df.iloc idx = .ok (df.rows.get ⟨i, pyIndex_lt _ _ _ hp⟩) := by
  unfold DataFrame.iloc
  rw [hp]
  dsimp only
  rw [List.getElem?_eq_getElem (pyIndex_lt _ _ _ hp)]
  rfl

/-- `Except` bind on a success passes the value on. -/
theorem exceptBind_ok {ε α β : Type} (a : α) (f : α → Except ε β) :
    (Except.ok a >>= f) = f a :=
  rfl

/-- `Except` bind on an error short-circuits. -/
theorem exceptBind_error {ε α β : Type} (e : ε) (f : α → Except ε β) :
    ((Except.error e : Except ε α) >>= f) = .error e :=
  rfl

/-- Inversion of a successful `__getitem__`: both row accesses succeeded, the
label row held a single cell, and the returned pieces are those rows. -/
theorem getitem_ok_inv (d : CustomDataset) (idx : Int) (f : List ℚ) (l : ℚ)
    (h : d.getitem idx = .ok (f, l)) :
    d.data_dir.iloc idx = .ok f ∧ d.targets_file.iloc idx = .ok [l] := by
  unfold CustomDataset.getitem at h
  cases hx : d.data_dir.iloc idx with
  | error e =>
    rw [hx, exceptBind_error] at h
    cases h
  | ok f0 =>
    rw [hx, exceptBind_ok] at h
    cases ht : d.targets_file.iloc idx with
    | error e =>
      rw [ht, exceptBind_error] at h
      cases h
    | ok trow =>
      rw [ht, exceptBind_ok] at h
      cases hs : seriesItem trow with
      | error e =>
        rw [hs, exceptBind_error] at h
        cases h
      | ok l0 =>
        rw [hs, exceptBind_ok] at h
        have h2 : (toNumpyFloat32 f0, l0) = (f, l) := by
          injection h
        injection h2 with hf hl
        subst hf
        subst hl
        refine ⟨rfl, ?_⟩
        unfold seriesItem at hs
        split at hs
        · injection hs with hs2
          subst hs2
          rfl
        · cases hs

/-- Composition of a successful `__getitem__` from its three steps. -/
theorem getitem_eq_ok (d : CustomDataset) (idx : Int) (f trow : List ℚ) (l : ℚ)
    (hx : d.data_dir.iloc idx = .ok f)
    (ht : d.targets_file.iloc idx = .ok trow)
    (hs : seriesItem trow = .ok l) :
    d.getitem idx = .ok (f, l) := by
  unfold CustomDataset.getitem
  rw [hx, exceptBind_ok, ht, exceptBind_ok, hs, exceptBind_ok]
  rfl

/-! The claims. -/

/-- C1 (amended): the wrapper constructor performs no row-count consistency
check: whenever both tabular sources parse, construction succeeds and stores
the two frames as they are, even when their row counts differ; the
`len(x) == len(y)` assertion of the notebook lives outside the class, on the
in-memory tables before they are saved, and no `ConsistencyError` exists at
construction. -/
theorem construct_no_rowcount_check (tf xf : CsvFile) (t x : DataFrame)
    (ht : read_csv tf = .ok t) (hx : read_csv xf = .ok x) :
    CustomDataset.init tf xf none none = .ok ⟨t, x, none, none⟩ := by
  unfold CustomDataset.init
  rw [ht, exceptBind_ok, hx, exceptBind_ok]
  rfl

/-- Witness for C1 at a mismatched pair: two label rows, one feature row. -/
theorem construct_no_rowcount_check_witness :
    exT.rows.length ≠ mmX.rows.length ∧
    CustomDataset.init exT.to_csv mmX.to_csv none none = .ok ⟨exT, mmX, none, none⟩ :=
  ⟨by decide,
   construct_no_rowcount_check exT.to_csv mmX.to_csv exT mmX
     (read_csv_to_csv exT) (read_csv_to_csv mmX)⟩

/-- C1 counterexample: constructing from tables of differing row counts (two
labels, one feature row) does not fail and yields a usable object, on which
`size()` and `get(0)` answer. -/
theorem construct_mismatch_ok :
    exT.rows.length = 2 ∧ mmX.rows.length = 1 ∧
    CustomDataset.init exT.to_csv mmX.to_csv none none = .ok mmDs ∧
    mmDs.len = 2 ∧ mmDs.getitem 0 = .ok ([1, 2], 0) :=
  ⟨rfl, rfl, init_to_csv exT mmX none none, rfl, rfl⟩

/-- C3 (amended): `size()` returns the row count of the labels file; it also
equals the row count of the features file whenever the two files have equal
row counts, which the constructor does not itself enforce. -/
theorem size_eq_label_rows (tf xf : CsvFile) (d : CustomDataset)
    (h : CustomDataset.init tf xf none none = .ok d) :
    d.len = tf.rows.length ∧
    (xf.rows.length = tf.rows.length → d.len = xf.rows.length) := by
  obtain ⟨ht, -, -, -⟩ := init_ok_inv tf xf none none d h
  obtain ⟨-, htr⟩ := read_csv_ok_inv tf d.targets_file ht
  have hlen : d.len = tf.rows.length := by
    unfold CustomDataset.len
    rw [htr]
  exact ⟨hlen, fun hq => by rw [hlen, ← hq]⟩

/-- Witness for C3 at a consistent two-record dataset. -/
theorem size_eq_label_rows_witness :
    exDs.len = exT.to_csv.rows.length ∧
    (exX.to_csv.rows.length = exT.to_csv.rows.length →
      exDs.len = exX.to_csv.rows.length) :=
  size_eq_label_rows exT.to_csv exX.to_csv exDs (init_to_csv exT exX none none)

/-- C3 counterexample: a successfully constructed dataset whose `size()` is 2
while its features file has a single row. -/
theorem size_ne_feature_rows :
    CustomDataset.init exT.to_csv mmX.to_csv none none = .ok mmDs ∧
    mmDs.len ≠ mmDs.data_dir.rows.length :=
  ⟨init_to_csv exT mmX none none, by decide⟩

/-- C5: writing a dataset object's two frames back to CSV and constructing a
new wrapper from those files succeeds and yields a wrapper with the same
`size()` and the same `get(i)` result at every index. -/
theorem csv_roundtrip_preserves (d : CustomDataset) :
    ∃ d2 : CustomDataset,
      CustomDataset.init d.targets_file.to_csv d.data_dir.to_csv none none = .ok d2 ∧
      d2.len = d.len ∧ ∀ idx : Int, d2.getitem idx = d.getitem idx :=
  ⟨⟨d.targets_file, d.data_dir, none, none⟩, init_to_csv _ _ _ _, rfl, fun _ => rfl⟩

/-- C8: `size()` and `get(idx)`, run as state transformers over the object,
return the object unchanged, and repeating `get(idx)` after a first call
returns the same answer. -/
theorem wrapper_state_immutable (d : CustomDataset) (idx : Int) :
    (CustomDataset.len_st.run d).2 = d ∧
    ((CustomDataset.getitem_st idx).run d).2 = d ∧
    ((CustomDataset.getitem_st idx).run ((CustomDataset.getitem_st idx).run d).2).1 =
      ((CustomDataset.getitem_st idx).run d).1 :=
  ⟨rfl, rfl, rfl⟩

/-- C9: `size()` is computed from the label table alone: it equals the label
table's row count whatever feature table is stored, including one with a
different row count. -/
theorem size_from_labels_only (t x x2 : DataFrame) :
    (CustomDataset.mk t x none none).len = t.rows.length ∧
    (CustomDataset.mk t x none none).len = (CustomDataset.mk t x2 none none).len :=
  ⟨rfl, rfl⟩

/-- `seriesItem` only ever raises `ValueError`. -/
theorem seriesItem_error_eq (row : List ℚ) (e : PdError)
    (h : seriesItem row = .error e) : e = .valueError := by
  unfold seriesItem at h
  split at h
  · cases h
  · cases h
    rfl

/-- `iloc` answers equally on indices that resolve equally. -/
theorem iloc_ext (df : DataFrame) (a b : Int)
    (h : pyIndex df.rows.length a = pyIndex df.rows.length b) :
    df.iloc a = df.iloc b := by
  unfold DataFrame.iloc
  rw [h]

/-- The head of a nonempty list is its entry at position 0. -/
theorem get_zero_of_head? {α : Type} (l : List α) (a : α) (h : l.head? = some a)
    (h0 : 0 < l.length) : l.get ⟨0, h0⟩ = a := by
  cases l with
  | nil => cases h
  | cons b t =>
    injection h

/-- C2 (amended): on a dataset whose two tables have the same row count `N`,
`get(index)` raises `IndexError` exactly when `index >= N` or `index < -N`;
an index in `[-N, 0)` is accepted by the underlying positional access instead
of raising. -/
theorem getitem_indexError_iff (d : CustomDataset) (N : Nat) (idx : Int)
    (hN : d.targets_file.rows.length = N) (hxl : d.data_dir.rows.length = N) :
    d.getitem idx = .error .indexError ↔ ((N : Int) ≤ idx ∨ idx < -(N : Int)) := by
  constructor
  · intro h
    by_contra hc
    have hne : pyIndex N idx ≠ none := fun hnone =>
      hc ((pyIndex_none_iff N idx).mp hnone)
    obtain ⟨i, hp⟩ := Option.ne_none_iff_exists'.mp hne
    have hpx : pyIndex d.data_dir.rows.length idx = some i := by
      rw [hxl]; exact hp
    have hpt : pyIndex d.targets_file.rows.length idx = some i := by
      rw [hN]; exact hp
    have hdx := iloc_of_pyIndex d.data_dir idx i hpx
    have hdt := iloc_of_pyIndex d.targets_file idx i hpt
    unfold CustomDataset.getitem at h
    rw [hdx, exceptBind_ok, hdt, exceptBind_ok] at h
    cases hs : seriesItem (d.targets_file.rows.get ⟨i, pyIndex_lt _ _ _ hpt⟩) with
    | ok l =>
      rw [hs, exceptBind_ok] at h
      cases h
    | error e =>
      rw [hs, exceptBind_error] at h
      have hv := seriesItem_error_eq _ _ hs
      subst hv
      injection h with h2
      cases h2
  · intro hout
    have hpn : pyIndex d.data_dir.rows.length idx = none := by
      rw [hxl, pyIndex_none_iff]
      exact hout
    have hdx : d.data_dir.iloc idx = .error .indexError :=
      (iloc_indexError_iff _ _).mpr hpn
    unfold CustomDataset.getitem
    rw [hdx, exceptBind_error]

/-- Witness for C2 at a consistent two-record dataset and index 5. -/
theorem getitem_indexError_iff_witness :
    exDs.targets_file.rows.length = 2 ∧ exDs.data_dir.rows.length = 2 ∧
    exDs.getitem 5 = .error .indexError :=
  ⟨rfl, rfl, (getitem_indexError_iff exDs 2 5 rfl rfl).mpr (Or.inl (by decide))⟩

/-- C2 counterexample: `-1` is outside `[0, size())` yet `get(-1)` raises
nothing and returns the last record. -/
theorem getitem_neg_one_ok :
    (-1 : Int) < 0 ∧ exDs.getitem (-1) = .ok ([3, 4], 1) :=
  ⟨by decide, rfl⟩

/-- C4: any two feature vectors that `get` returns successfully have the same
length, the column count of the feature table. -/
theorem feature_vector_length_const (d : CustomDataset) (i j : Int)
    (fi fj : List ℚ) (li lj : ℚ)
    (hi : d.getitem i = .ok (fi, li)) (hj : d.getitem j = .ok (fj, lj)) :
    fi.length = fj.length := by
  obtain ⟨hxi, -⟩ := getitem_ok_inv d i fi li hi
  obtain ⟨hxj, -⟩ := getitem_ok_inv d j fj lj hj
  have m1 := iloc_mem d.data_dir i fi hxi
  have m2 := iloc_mem d.data_dir j fj hxj
  rw [d.data_dir.rect fi m1, d.data_dir.rect fj m2]

/-- Witness for C4 at the two records of the example dataset. -/
theorem feature_vector_length_const_witness :
    exDs.getitem 0 = .ok ([1, 2], 0) ∧ exDs.getitem 1 = .ok ([3, 4], 1) ∧
    ([1, 2] : List ℚ).length = ([3, 4] : List ℚ).length :=
  ⟨rfl, rfl, feature_vector_length_const exDs 0 1 [1, 2] [3, 4] 0 1 rfl rfl⟩

/-- C10 (amended): on a dataset whose tables share the row count `N` and whose
label table has a single column, a negative index `k` in `[-N, 0)` raises no
error: `get(k)` answers exactly as `get(N + k)` does, successfully. -/
theorem getitem_negative_wraparound (d : CustomDataset) (N : Nat) (k : Int)
    (hN : d.targets_file.rows.length = N) (hxN : d.data_dir.rows.length = N)
    (hcol : d.targets_file.header.length = 1)
    (hk1 : -(N : Int) ≤ k) (hk2 : k < 0) :
    d.getitem k = d.getitem ((N : Int) + k) ∧
    ∃ rec, d.getitem k = .ok rec := by
  have hpe : pyIndex N k = pyIndex N ((N : Int) + k) := pyIndex_neg N k hk1 hk2
  have e1 : d.data_dir.iloc k = d.data_dir.iloc ((N : Int) + k) :=
    iloc_ext _ _ _ (by rw [hxN]; exact hpe)
  have e2 : d.targets_file.iloc k = d.targets_file.iloc ((N : Int) + k) :=
    iloc_ext _ _ _ (by rw [hN]; exact hpe)
  have egeti : d.getitem k = d.getitem ((N : Int) + k) := by
    unfold CustomDataset.getitem
    rw [e1, e2]
  refine ⟨egeti, ?_⟩
  have hiN : ((N : Int) + k).toNat < N := by omega
  have hp : pyIndex N ((N : Int) + k) = some ((N : Int) + k).toNat := by
    have h0 := pyIndex_nat N ((N : Int) + k).toNat hiN
    rw [show ((((N : Int) + k).toNat : Nat) : Int) = (N : Int) + k from by omega] at h0
    exact h0
  have hpx : pyIndex d.data_dir.rows.length ((N : Int) + k) = some ((N : Int) + k).toNat := by
    rw [hxN]; exact hp
  have hpt : pyIndex d.targets_file.rows.length ((N : Int) + k) = some ((N : Int) + k).toNat := by
    rw [hN]; exact hp
  have hdx := iloc_of_pyIndex d.data_dir _ _ hpx
  have hdt := iloc_of_pyIndex d.targets_file _ _ hpt
  have hmem : d.targets_file.rows.get ⟨((N : Int) + k).toNat, pyIndex_lt _ _ _ hpt⟩ ∈
      d.targets_file.rows := List.get_mem _ _ _
  have hlen1 : (d.targets_file.rows.get ⟨((N : Int) + k).toNat, pyIndex_lt _ _ _ hpt⟩).length = 1 := by
    rw [d.targets_file.rect _ hmem, hcol]
  obtain ⟨v, hv⟩ := List.length_eq_one.mp hlen1
  refine ⟨(d.data_dir.rows.get ⟨((N : Int) + k).toNat, pyIndex_lt _ _ _ hpx⟩, v), ?_⟩
  rw [egeti]
  exact getitem_eq_ok d _ _ [v] v hdx (by rw [hdt, hv]) rfl

/-- Witness for C10 at the consistent two-record dataset and index -1. -/
theorem getitem_negative_wraparound_witness :
    exDs.getitem (-1) = exDs.getitem (((2 : Nat) : Int) + -1) ∧
    ∃ rec, exDs.getitem (-1) = .ok rec :=
  getitem_negative_wraparound exDs 2 (-1) rfl rfl rfl (by decide) (by decide)

/-- C10 counterexample: on a constructed dataset with `size() = 2` but a
single feature row, `get(-2)` raises `IndexError` rather than returning the
record at position 0. -/
theorem getitem_negative_mismatch_err :
    mmDs.len = 2 ∧ (-2 : Int) < 0 ∧ -(2 : Int) ≤ -2 ∧
    mmDs.getitem (-2) = .error .indexError :=
  ⟨rfl, by decide, by decide, rfl⟩

/-- C6: from any Iris-shaped pair of files — 150 data rows of 4 features
starting with `5.1, 3.5, 1.4, 0.2`, and 150 single-column target rows starting
with label `0` — the constructed dataset answers `size() = 150` and
`get(0) = ([5.1, 3.5, 1.4, 0.2], 0)`. -/
theorem iris_end_to_end (dataF targetsF : CsvFile) (d : CustomDataset)
    (hxs : dataF.rows.length = 150) (_hxc : dataF.header.length = 4)
    (hx0 : dataF.rows.head? = some [5.1, 3.5, 1.4, 0.2])
    (hts : targetsF.rows.length = 150) (_htc : targetsF.header.length = 1)
    (ht0 : targetsF.rows.head? = some [0])
    (hinit : CustomDataset.init targetsF dataF none none = .ok d) :
    d.len = 150 ∧ d.getitem 0 = .ok ([5.1, 3.5, 1.4, 0.2], 0) := by
  obtain ⟨ht, hx, -, -⟩ := init_ok_inv targetsF dataF none none d hinit
  obtain ⟨-, htr⟩ := read_csv_ok_inv targetsF d.targets_file ht
  obtain ⟨-, hxr⟩ := read_csv_ok_inv dataF d.data_dir hx
  have hlen : d.len = 150 := by
    unfold CustomDataset.len
    rw [htr, hts]
  refine ⟨hlen, ?_⟩
  have hxlt : (0 : Nat) < d.data_dir.rows.length := by
    rw [hxr, hxs]
    decide
  have htlt : (0 : Nat) < d.targets_file.rows.length := by
    rw [htr, hts]
    decide
  have hpx : pyIndex d.data_dir.rows.length 0 = some 0 := by
    simpa using pyIndex_nat d.data_dir.rows.length 0 hxlt
  have hpt : pyIndex d.targets_file.rows.length 0 = some 0 := by
    simpa using pyIndex_nat d.targets_file.rows.length 0 htlt
  have hdx := iloc_of_pyIndex d.data_dir 0 0 hpx
  have hdt := iloc_of_pyIndex d.targets_file 0 0 hpt
  have hh1 : d.data_dir.rows.head? = some [5.1, 3.5, 1.4, 0.2] := by
    rw [hxr]
    exact hx0
  have hh2 : d.targets_file.rows.head? = some [0] := by
    rw [htr]
    exact ht0
  have e1 : d.data_dir.iloc 0 = .ok [5.1, 3.5, 1.4, 0.2] := by
    rw [hdx, get_zero_of_head? _ _ hh1 hxlt]
  have e2 : d.targets_file.iloc 0 = .ok [0] := by
    rw [hdt, get_zero_of_head? _ _ hh2 htlt]
  exact getitem_eq_ok d 0 _ [0] 0 e1 e2 rfl

/-- Witness for C6 at a concrete Iris-shaped file pair. -/
theorem iris_end_to_end_witness :
    irisDs.len = 150 ∧ irisDs.getitem 0 = .ok ([5.1, 3.5, 1.4, 0.2], 0) :=
  iris_end_to_end irisX.to_csv irisT.to_csv irisDs
    (by simp [irisX, DataFrame.to_csv])
    rfl
    (by simp [irisX, DataFrame.to_csv, irisRow, List.replicate])
    (by simp [irisT, DataFrame.to_csv])
    rfl
    (by simp [irisT, DataFrame.to_csv, List.replicate])
    (init_to_csv irisT irisX none none)

/-- C7: given any permutation of the `N` dataset indices, slicing it at
`floor(r * N)` (for a proportion `0 ≤ r ≤ 1`) yields two subsets of sizes
`floor(r * N)` and `N - floor(r * N)` that are disjoint and jointly cover all
`N` indices; at `N = 150`, `r = 0.8` the sizes are 120 and 30. -/
theorem random_split_partitions (r : ℚ) (N : Nat) (perm : List Nat)
    (_hr0 : 0 ≤ r) (hr1 : r ≤ 1) (hp : perm.Perm (List.range N)) :
    ((random_split perm (splitSizes r N).1).1.length = (splitSizes r N).1 ∧
     (random_split perm (splitSizes r N).1).2.length = N - (splitSizes r N).1 ∧
     (random_split perm (splitSizes r N).1).1.Disjoint
       (random_split perm (splitSizes r N).1).2 ∧
     ∀ i, i < N →
       i ∈ (random_split perm (splitSizes r N).1).1 ∨
         i ∈ (random_split perm (splitSizes r N).1).2) ∧
    splitSizes (0.8 : ℚ) 150 = (120, 30) := by
  have hlen : perm.length = N := by
    rw [hp.length_eq, List.length_range]
  have hts : (splitSizes r N).1 ≤ N := by
    unfold splitSizes
    dsimp only
    have h1 : r * (N : ℚ) ≤ (N : ℚ) := by
      calc r * (N : ℚ) ≤ 1 * (N : ℚ) :=
            mul_le_mul_of_nonneg_right hr1 (by positivity)
        _ = (N : ℚ) := one_mul _
    have h2 : ⌊r * (N : ℚ)⌋ ≤ (N : Int) := by
      calc ⌊r * (N : ℚ)⌋ ≤ ⌊(N : ℚ)⌋ := Int.floor_le_floor h1
        _ = (N : Int) := Int.floor_natCast N
    omega
  refine ⟨⟨?_, ?_, ?_, ?_⟩, ?_⟩
  · unfold random_split
    rw [List.length_take, hlen, Nat.min_eq_left hts]
  · unfold random_split
    rw [List.length_drop, hlen]
  · unfold random_split
    exact List.disjoint_take_drop (hp.nodup_iff.mpr (List.nodup_range N)) le_rfl
  · intro i hi
    have hmem : i ∈ perm := hp.mem_iff.mpr (List.mem_range.mpr hi)
    rw [← List.take_append_drop (splitSizes r N).1 perm] at hmem
    unfold random_split
    exact List.mem_append.mp hmem
  · norm_num [splitSizes]
    exact ⟨rfl, rfl⟩

/-- Witness for C7 at the identity permutation of 150 indices and the full
proportion 1. -/
theorem random_split_partitions_witness :
    ((random_split (List.range 150) (splitSizes 1 150).1).1.length = (splitSizes 1 150).1 ∧
     (random_split (List.range 150) (splitSizes 1 150).1).2.length = 150 - (splitSizes 1 150).1 ∧
     (random_split (List.range 150) (splitSizes 1 150).1).1.Disjoint
       (random_split (List.range 150) (splitSizes 1 150).1).2 ∧
     ∀ i, i < 150 →
       i ∈ (random_split (List.range 150) (splitSizes 1 150).1).1 ∨
         i ∈ (random_split (List.range 150) (splitSizes 1 150).1).2) ∧
    splitSizes (0.8 : ℚ) 150 = (120, 30) :=
  random_split_partitions 1 150 (List.range 150) zero_le_one le_rfl (List.Perm.refl _)

